import Mathlib

/-!
Verification of the py-dns zone-database loader (`src/zone.py`, `src/db.py`)
against its natural-language specification.

The Python code is shallowly embedded: dynamic Python values become `PyVal`,
raised exceptions become `Except PyErr`, mutable by-reference pool lists are
threaded explicitly, and the `ipaddress` standard-library routines the code
relies on (strict IPv4 dotted-quad parsing, IPv6 parsing with `::`
compression and embedded IPv4, reverse pointers) are modelled as executable
functions.  Scope ids (`%zone`) of IPv6 addresses are not modelled; none of
the repository's inputs use them.
-/

set_option maxRecDepth 8000

namespace PyDNS

/-- A decoded Python/JSON scalar value as it occurs in a raw record mapping. -/
inductive PyVal where
  | str (s : String)
  | int (n : Int)
  | bool (b : Bool)
  deriving DecidableEq, Repr

/-- Python truthiness for the values above (`"" `, `0`, `False` are falsy). -/
def PyVal.truthy : PyVal → Bool
  | .str s => s ≠ ""
  | .int n => n ≠ 0
  | .bool b => b

/-- Is the value a `str` instance (`isinstance(v, str)`)? -/
def PyVal.isStr : PyVal → Bool
  | .str _ => true
  | _ => false

/-- The exceptions the loader can raise, one tag per raise site / library error. -/
inductive PyErr where
  /-- `record['type']` on a mapping without that key. -/
  | keyError
  /-- `ValueError("record type undefined")` (db.py line 16). -/
  | recordTypeUndefined
  /-- `next()` on the exhausted class filter (db.py line 21); inside the
  coroutine PEP 479 turns the `StopIteration` into a `RuntimeError`. -/
  | stopIteration
  /-- dataclass `__init__` invoked without a required field argument. -/
  | typeErrorMissingArg
  /-- `ValueError` for an address that does not parse (zone.py A/AAAA
  `__post_init__`, `ipaddress.ip_address` in `PTRRecord`/source construction). -/
  | invalidAddress
  /-- `ValueError` from `validate_hostname` (zone.py lines 159-163). -/
  | invalidHostname
  /-- `ValueError("TXT record cant have more then 255 character")`. -/
  | textTooLong
  /-- `UnboundLocalError`/`NameError`: `return record_ins` with the loop body
  never having run (db.py line 38). -/
  | nameError
  /-- `Exception("namespace should be an string")` (db.py line 44). -/
  | namespaceNotString
  /-- `Exception("subzone cant be root")` (db.py line 47). -/
  | subzoneCantBeRoot
  /-- `AttributeError`: `namespace.endswith(".")` with `namespace = None`
  (db.py line 49). -/
  | attributeErrorEndswith
  /-- `Exception("root cant have a record")` (db.py line 53). -/
  | rootCantHaveRecord
  /-- `AttributeError`: `zone.get("subzones", [])` after line 83 rebound
  `zone` to the constructed `Zone` dataclass, which has no `get`. -/
  | attributeErrorZoneGet
  deriving DecidableEq, Repr

/-! ## Model of the `ipaddress` standard library -/

/-- Split a character list at every occurrence of `c` (Python `str.split`). -/
def splitOnChar (c : Char) : List Char → List (List Char)
  | [] => [[]]
  | x :: xs =>
    let r := splitOnChar c xs
    if x = c then [] :: r
    else
      match r with
      | [] => [[x]]
      | y :: ys => (x :: y) :: ys

def decDigitVal (c : Char) : Nat := c.toNat - 48

def isHexDigitChar (c : Char) : Bool :=
  c.isDigit || ('a' ≤ c && c ≤ 'f') || ('A' ≤ c && c ≤ 'F')

def hexDigitVal (c : Char) : Nat :=
  if c.isDigit then c.toNat - 48
  else if 'a' ≤ c && c ≤ 'f' then c.toNat - 87
  else c.toNat - 55

/-- Strict IPv4 octet parsing (`ipaddress._parse_octet`): 1-3 ASCII digits,
no leading zero unless the octet is exactly `0`, value at most 255. -/
def parseOctet (cs : List Char) : Option Nat :=
  if cs.length = 0 || cs.length > 3 then none
  else if ¬ cs.all Char.isDigit then none
  else if cs.length > 1 && cs.headD '0' = '0' then none
  else
    let v := cs.foldl (fun a c => a * 10 + decDigitVal c) 0
    if v ≤ 255 then some v else none

/-- Strict IPv4 dotted-quad parsing (`ipaddress.IPv4Address`), as a 32-bit value. -/
def parseIPv4 (cs : List Char) : Option Nat :=
  match splitOnChar '.' cs with
  | [a, b, c, d] =>
    match parseOctet a, parseOctet b, parseOctet c, parseOctet d with
    | some x, some y, some z, some w => some (((x * 256 + y) * 256 + z) * 256 + w)
    | _, _, _, _ => none
  | _ => none

/-- A group of 1-4 hex digits (`ipaddress._parse_hextet`). -/
def parseHextet (cs : List Char) : Option Nat :=
  if cs.length = 0 || cs.length > 4 then none
  else if cs.all isHexDigitChar then
    some (cs.foldl (fun a c => a * 16 + hexDigitVal c) 0)
  else none

def parseHextets : List (List Char) → Option (List Nat)
  | [] => some []
  | g :: gs =>
    match parseHextet g, parseHextets gs with
    | some v, some vs => some (v :: vs)
    | _, _ => none

def hextetsVal (vs : List Nat) : Nat := vs.foldl (fun a v => a * 65536 + v) 0

/-- IPv6 parsing (`ipaddress.IPv6Address._ip_int_from_string`): at least 3
colon-separated parts, an embedded IPv4 suffix replaces the last part by two
hextets, at most one `::` (an interior empty part), exactly 8 groups after
expanding the compression.  Scope ids are not modelled. -/
def parseIPv6 (cs : List Char) : Option Nat :=
  let parts0 := splitOnChar ':' cs
  if parts0.length < 3 then none
  else
    let withV4 : Option (List (List Char)) :=
      match parts0.getLast? with
      | none => none
      | some last =>
        if last.contains '.' then
          match parseIPv4 last with
          | none => none
          | some v => some (parts0.dropLast ++ [Nat.toDigits 16 (v / 65536), Nat.toDigits 16 (v % 65536)])
        else some parts0
    match withV4 with
    | none => none
    | some parts =>
      if parts.length > 9 then none
      else
        let interior := (parts.drop 1).dropLast
        let emptyCount := interior.countP (·.isEmpty)
        if emptyCount ≥ 2 then none
        else if emptyCount = 1 then
          let skipIdx := 1 + interior.findIdx (·.isEmpty)
          let headEmpty := (parts.headD ['x']).isEmpty
          let lastEmpty := (parts.getLastD ['x']).isEmpty
          if headEmpty && skipIdx ≠ 1 then none
          else if lastEmpty && skipIdx ≠ parts.length - 2 then none
          else
            let hiParts := if headEmpty then [] else parts.take skipIdx
            let loParts := if lastEmpty then [] else parts.drop (skipIdx + 1)
            if hiParts.length + loParts.length > 7 then none
            else
              match parseHextets hiParts, parseHextets loParts with
              | some hi, some lo =>
                some (hextetsVal hi * 65536 ^ (8 - hi.length) + hextetsVal lo)
              | _, _ => none
        else
          if parts.length ≠ 8 then none
          else
            match parseHextets parts with
            | some vs => some (hextetsVal vs)
            | none => none

/-- A parsed IP value; IPv4 and IPv6 addresses of equal numeric value are
distinct (as in Python, where `IPv4Address` never equals `IPv6Address`). -/
inductive IPAddr where
  | v4 (val : Nat)
  | v6 (val : Nat)
  deriving DecidableEq, Repr

/-- `ipaddress.ip_address`: try IPv4 first, then IPv6. -/
def ipAddressOfString (s : String) : Option IPAddr :=
  match parseIPv4 s.data with
  | some v => some (.v4 v)
  | none => (parseIPv6 s.data).map .v6

/-- `ipaddress.IPv4Address(s)` as used by `ARecord.__post_init__`. -/
def ipv4OfString (s : String) : Option Nat := parseIPv4 s.data

/-- `ipaddress.IPv6Address(s)` as used by `AAAARecord.__post_init__`. -/
def ipv6OfString (s : String) : Option Nat := parseIPv6 s.data

def joinDots : List (List Char) → List Char
  | [] => []
  | [g] => g
  | g :: gs => g ++ '.' :: joinDots gs

def hexChar (n : Nat) : Char := (Nat.toDigits 16 n).headD '0'

/-- `ipaddress` `reverse_pointer`: for IPv4 the octets reversed followed by
`.in-addr.arpa`; for IPv6 the 32 nibbles, least significant first, followed
by `.ip6.arpa`. -/
def IPAddr.reversePointer : IPAddr → String
  | .v4 v =>
    String.mk (joinDots [Nat.toDigits 10 (v % 256), Nat.toDigits 10 (v / 256 % 256),
      Nat.toDigits 10 (v / 65536 % 256), Nat.toDigits 10 (v / 16777216 % 256)]) ++ ".in-addr.arpa"
  | .v6 v =>
    String.mk (joinDots ((List.range 32).map (fun i => [hexChar (v / 16 ^ i % 16)]))) ++ ".ip6.arpa"

/-! ## zone.py: record variants -/

/-- The `RecordType` enumeration (zone.py lines 10-15). -/
inductive RecordType where
  | A
  | AAAA
  | CNAME
  | TXT
  | PTR
  deriving DecidableEq, Repr

/-- `RecordType[name]` enum lookup by member name. -/
def recordTypeOfName (s : String) : Option RecordType :=
  if s = "A" then some .A
  else if s = "AAAA" then some .AAAA
  else if s = "CNAME" then some .CNAME
  else if s = "TXT" then some .TXT
  else if s = "PTR" then some .PTR
  else none

/-- A constructed non-PTR record instance.  The constructor tag is the
record's concrete class; its arguments are that class's dataclass fields
other than `record_type` (whose value is fixed per class).  `ttl` is
annotated only on the non-dataclass base `BaseRecord`, so it is not a
dataclass field of any variant: no constructor accepts it and every
instance carries the class attribute value `None` (see `DNSRecord.ttl`). -/
inductive DNSRecord where
  | a (address : String) (ptr_record : Bool)
  | aaaa (address : String) (ptr_record : Bool)
  | cname (target : String)
  | txt (text : String)
  deriving DecidableEq, Repr

/-- The `record_type` field value of an instance (the per-class default;
no reachable construction overrides it). -/
def DNSRecord.recordType : DNSRecord → RecordType
  | .a _ _ => .A
  | .aaaa _ _ => .AAAA
  | .cname _ => .CNAME
  | .txt _ => .TXT

/-- The `ttl` attribute of an instance: the `BaseRecord` class attribute
`None`; no constructor ever assigns it. -/
def DNSRecord.ttl (_ : DNSRecord) : Option Int := none

/-- The dataclass-generated `__eq__` of the record variants: `NotImplemented`
(hence `False`) unless `other.__class__ is self.__class__`, otherwise the
tuple of dataclass fields compared componentwise. -/
def pyRecordEq : DNSRecord → DNSRecord → Bool
  | .a ad₁ p₁, .a ad₂ p₂ => ad₁ = ad₂ && p₁ = p₂
  | .aaaa ad₁ p₁, .aaaa ad₂ p₂ => ad₁ = ad₂ && p₁ = p₂
  | .cname t₁, .cname t₂ => t₁ = t₂
  | .txt t₁, .txt t₂ => t₁ = t₂
  | _, _ => false

/-- `validate_hostname` (zone.py lines 159-163). -/
def validate_hostname (name : String) : Except PyErr Unit :=
  if name = "" then .error .invalidHostname
  else if name.contains ' ' then .error .invalidHostname
  else .ok ()

/-- A `PTRRecord` instance: its custom `__init__` keeps `host` and rewrites
`address` to the parsed address's `reverse_pointer` (zone.py lines 85-97). -/
structure PTRRecord where
  host : String
  address : String
  deriving DecidableEq, Repr

/-- `PTRRecord(host, address)`: `ipaddress.ip_address` raises `ValueError`
on an unparseable address. -/
def PTRRecord.make (host address : String) : Except PyErr PTRRecord :=
  match ipAddressOfString address with
  | none => .error .invalidAddress
  | some ip => .ok ⟨host, ip.reversePointer⟩

/-- The dataclass-generated `__eq__` of `PTRRecord`: same class, then the
field tuple `(host, address, record_type)`; `record_type` is the class
default `RecordType.PTR` on every instance (the custom `__init__` never
assigns it), so it compares equal and is omitted. -/
def ptrPyEq (p q : PTRRecord) : Bool :=
  p.host = q.host && p.address = q.address

/-! ## zone.py: source identifiers

`RecursionSource` and `RequestSource` mix in `IPComparableMixin`, but the
`@dataclass` decorator installs a generated `__eq__` on each class (the
mixin's `__eq__` lives in the mixin's `__dict__`, not the subclass's own, so
`dataclasses._set_new_attribute` does not find it and overwrites it), and
sets `__hash__` to `None` (making instances unhashable).  The effective
equality therefore compares the raw `address` strings and requires the same
class; compared against a `str` it yields `NotImplemented` on both sides and
Python falls back to identity, i.e. `False`. -/

structure RecursionSource where
  address : String
  deriving DecidableEq, Repr

structure RequestSource where
  address : String
  deriving DecidableEq, Repr

/-- `RecursionSource(address)`: `__post_init__` calls
`ipaddress.ip_address(self.address)`; an unparseable address raises
`ValueError` (the `except ipaddress.AddressValueError` clause does not catch
the plain `ValueError` that `ip_address` raises, so the error still
propagates and construction fails either way). -/
def RecursionSource.make (address : String) : Except PyErr RecursionSource :=
  match ipAddressOfString address with
  | none => .error .invalidAddress
  | some _ => .ok ⟨address⟩

/-- `RequestSource(address)`, same validation as `RecursionSource.make`. -/
def RequestSource.make (address : String) : Except PyErr RequestSource :=
  match ipAddressOfString address with
  | none => .error .invalidAddress
  | some _ => .ok ⟨address⟩

/-- The effective `__eq__` between two `RecursionSource` instances: the
dataclass-generated field-tuple comparison on the raw `address` strings. -/
def RecursionSource.pyEq (s₁ s₂ : RecursionSource) : Bool :=
  s₁.address = s₂.address

/-- The effective `__eq__` between a source instance and a `str` (the pool
lookup `src == addr` in db.py lines 62-63 and 74-75): the dataclass `__eq__`
returns `NotImplemented` because a `str` is not of the same class, the
reflected `str.__eq__` also returns `NotImplemented`, and Python falls back
to identity, which is `False` for objects of different types. -/
def RecursionSource.pyEqStr (_ : RecursionSource) (_ : String) : Bool := false

/-- Same fallback for `RequestSource` compared against a `str`. -/
def RequestSource.pyEqStr (_ : RequestSource) (_ : String) : Bool := false

/-- The shadowed `IPComparableMixin.__eq__` against a `str` comparand
(zone.py lines 105-110), as written: `self._ip() == ipaddress.ip_address(other)`
inside `try`, any `ValueError` from either parse caught and turned into
`False`.  `ip_address` raises nothing but `ValueError` on a `str`, so the
method is total. -/
def IPComparableMixin.eqStr (selfAddress other : String) : Bool :=
  match ipAddressOfString selfAddress, ipAddressOfString other with
  | some i, some j => i = j
  | _, _ => false

/-! ## zone.py: the Zone dataclass -/

/-- The `Zone` dataclass (zone.py lines 146-157).  `namespace` is `None` at
the root, so it is modelled as optional. -/
inductive Zone where
  | mk (nspace : Option String) (records : List DNSRecord)
      (recursion : List RecursionSource) (allowSources : List RequestSource)
      (subsets : List Zone) (parent : Option Zone)

/-- The `Zone.host` property (zone.py lines 155-157):
`(self.namespace or "") + ("." if not self.parent else self.parent.host)`.
(A `namespace` of `None` or `""` contributes the empty string.) -/
def Zone.host : Zone → String
  | .mk ns _ _ _ _ none => (ns.getD "") ++ "."
  | .mk ns _ _ _ _ (some p) => (ns.getD "") ++ p.host

/-! ## db.py: the record loader -/

/-- A raw record mapping: the decoded key/value pairs (keys are unique in a
decoded JSON object; lookup takes the first match). -/
def RawRecord := List (String × PyVal)

/-- `RecordType[type]` where `type = record['type']`: lookup by member name;
a non-`str` subscript also raises `KeyError` inside the `try`. -/
def recordTypeOfVal : PyVal → Option RecordType
  | .str s => recordTypeOfName s
  | _ => none

/-- The tuple `(ARecord, AAAARecord, CNAMERecord, TXTRecord)` of db.py
line 21, each class identified by its `record_type` class attribute. -/
def concreteRecordTypes : List RecordType := [.A, .AAAA, .CNAME, .TXT]

/-- `next(filter(lambda t: t.record_type == rtype, (...)))` (db.py line 21):
the first concrete class whose `record_type` matches, `none` meaning the
iterator is exhausted and `next` raises `StopIteration`. -/
def selectRecordClass (rtype : RecordType) : Option RecordType :=
  concreteRecordTypes.find? (· = rtype)

/-- `record_type.__dict__["__annotations__"]` — each class's own annotation
names, in declaration order. -/
def ownAnnotationKeys : RecordType → List String
  | .A => ["address", "ptr_record", "record_type"]
  | .AAAA => ["address", "ptr_record", "record_type"]
  | .CNAME => ["target", "record_type"]
  | .TXT => ["text", "record_type"]
  | .PTR => ["host", "address", "record_type"]

/-- `record_params = set(record_type.__dict__["__annotations__"]) & set(("record_type",))`
(db.py line 23): the intersection with the singleton `{"record_type"}`. -/
def recordParams (cls : RecordType) : List String :=
  (ownAnnotationKeys cls).filter (fun k => k ∈ ["record_type"])

/-- `params = dict(filter(lambda param: param[0] in record_params, record.items()))`
(db.py line 25). -/
def extractParams (cls : RecordType) (record : RawRecord) : RawRecord :=
  record.filter (fun kv => (recordParams cls).contains kv.1)

/-- `record_type(**params)` — the dataclass `__init__` of the selected class
followed by its `__post_init__` validation.  A required field missing from
`params` raises `TypeError`.  (`load_records` only ever passes `params`
whose keys all equal `"record_type"` — see `extractParams_keys` — so only
the missing-required-field branch is reachable from it; the remaining
branches model direct construction with string field values, and a
non-string value for a validated field is conservatively mapped to the
validation error of that field.) -/
def constructRecord (cls : RecordType) (params : RawRecord) : Except PyErr DNSRecord :=
  match cls with
  | .A =>
    match List.lookup "address" params with
    | none => .error .typeErrorMissingArg
    | some (.str ad) =>
      let pr := match List.lookup "ptr_record" params with
        | some v => v.truthy
        | none => false
      if (ipv4OfString ad).isSome then .ok (.a ad pr) else .error .invalidAddress
    | some _ => .error .invalidAddress
  | .AAAA =>
    match List.lookup "address" params with
    | none => .error .typeErrorMissingArg
    | some (.str ad) =>
      let pr := match List.lookup "ptr_record" params with
        | some v => v.truthy
        | none => false
      if (ipv6OfString ad).isSome then .ok (.aaaa ad pr) else .error .invalidAddress
    | some _ => .error .invalidAddress
  | .CNAME =>
    match List.lookup "target" params with
    | none => .error .typeErrorMissingArg
    | some (.str t) =>
      match validate_hostname t with
      | .ok _ => .ok (.cname t)
      | .error e => .error e
    | some _ => .error .invalidHostname
  | .TXT =>
    match List.lookup "text" params with
    | none => .error .typeErrorMissingArg
    | some (.str t) =>
      if t.length > 255 then .error .textTooLong else .ok (.txt t)
    | some _ => .error .textTooLong
  | .PTR => .error .typeErrorMissingArg

/-- `if ptr not in ptr_records: ptr_records.append(ptr)` (db.py lines 32-33):
the `in` test applies the dataclass `__eq__` (`ptrPyEq`). -/
def addPTR (pool : List PTRRecord) (ptr : PTRRecord) : List PTRRecord :=
  if pool.any (fun e => ptrPyEq ptr e) then pool else pool ++ [ptr]

/-- db.py lines 29-33: if the constructed record is an A/AAAA record with
its `ptr_record` flag set, synthesize `PTRRecord(host, record_ins.address)`
and insert it into the shared pool unless an equal PTR is already there. -/
def syncPTR (host : String) (rec : DNSRecord) (pool : List PTRRecord) :
    Except PyErr (List PTRRecord) :=
  match rec with
  | .a ad true | .aaaa ad true =>
    match PTRRecord.make host ad with
    | .error e => .error e
    | .ok ptr => .ok (addPTR pool ptr)
  | _ => .ok pool

/-- `if record_ins not in records_ins: records_ins.append(record_ins)`
(db.py lines 35-36): intra-zone duplicate suppression via `pyRecordEq`. -/
def dedupAppend (acc : List DNSRecord) (rec : DNSRecord) : List DNSRecord :=
  if acc.any (fun e => pyRecordEq rec e) then acc else acc ++ [rec]

/-- The `for record in records` loop of `load_records` (db.py lines 10-36),
threading the shared PTR pool, the accumulated `records_ins` list, and the
loop variable `record_ins` (absent until the body first completes). -/
def loadRecordsLoop (host : String) :
    List RawRecord → List PTRRecord → List DNSRecord → Option DNSRecord →
    Except PyErr (Option DNSRecord × List DNSRecord × List PTRRecord)
  | [], pool, ins, last => .ok (last, ins, pool)
  | record :: rest, pool, ins, _last =>
    match List.lookup "type" record with
    | none => .error .keyError
    | some tv =>
      match recordTypeOfVal tv with
      | none => .error .recordTypeUndefined
      | some rtype =>
        -- db.py line 18: `isinstance(rtype, PTRRecord)` is always False,
        -- since `rtype` is a `RecordType` enum member and not a `PTRRecord`
        -- instance, so the `raise` on line 19 is dead code.
        match selectRecordClass rtype with
        | none => .error .stopIteration
        | some cls =>
          match constructRecord cls (extractParams cls record) with
          | .error e => .error e
          | .ok rec =>
            match syncPTR host rec pool with
            | .error e => .error e
            | .ok pool' => loadRecordsLoop host rest pool' (dedupAppend ins rec) (some rec)

/-- `load_records` (db.py lines 7-38).  The function returns `record_ins`
(the loop variable holding the last constructed record), not `records_ins`;
when the loop never ran, `record_ins` is unbound and the `return` raises.
The shared PTR pool is returned alongside to model its by-reference
mutation; the accumulated `records_ins` list is discarded, as in the source. -/
def loadRecords (records : List RawRecord) (host : String)
    (ptrPool : List PTRRecord) : Except PyErr (DNSRecord × List PTRRecord) :=
  match loadRecordsLoop host records ptrPool [] none with
  | .error e => .error e
  | .ok (none, _, _) => .error .nameError
  | .ok (some r, _, pool) => .ok (r, pool)

/-- The sequence of PTR-synthesis steps (db.py lines 29-33) that a load
performs: one `syncPTR` step per constructed record, each with the host of
the zone the record belongs to, all against the single load-wide pool. -/
def syncPTRAll : List (String × DNSRecord) → List PTRRecord → Except PyErr (List PTRRecord)
  | [], pool => .ok pool
  | (host, rec) :: rest, pool =>
    match syncPTR host rec pool with
    | .error e => .error e
    | .ok pool' => syncPTRAll rest pool'

/-- The evolution of the `records_ins` accumulator (db.py lines 35-36) over
a zone's constructed records. -/
def recordsAccum (l : List DNSRecord) : List DNSRecord :=
  l.foldl dedupAppend []

/-- Spec-side predicate (for the claim that record equality coincides with
field equality): "all their declared fields are equal", i.e. the two
records carry the same kind-specific field values, and records of
different kinds never qualify. -/
def declaredFieldsEq : DNSRecord → DNSRecord → Prop
  | .a ad₁ p₁, .a ad₂ p₂ => ad₁ = ad₂ ∧ p₁ = p₂
  | .aaaa ad₁ p₁, .aaaa ad₂ p₂ => ad₁ = ad₂ ∧ p₁ = p₂
  | .cname t₁, .cname t₂ => t₁ = t₂
  | .txt t₁, .txt t₂ => t₁ = t₂
  | _, _ => False

/-! ## db.py: the zone loader -/

/-- A raw zone mapping, with the schema keys the loader reads (`none`
meaning the key is absent). -/
inductive RawZone where
  | mk (nspace : Option PyVal) (records : Option (List RawRecord))
      (recursion : Option (List String)) (allowSources : Option (List String))
      (subzones : Option (List RawZone))

def RawZone.nspace : RawZone → Option PyVal
  | .mk v _ _ _ _ => v

def RawZone.records : RawZone → Option (List RawRecord)
  | .mk _ v _ _ _ => v

def RawZone.recursion : RawZone → Option (List String)
  | .mk _ _ v _ _ => v

def RawZone.allowSources : RawZone → Option (List String)
  | .mk _ _ _ v _ => v

/-- The `for src in recursion_sources: if src == addr: break / else: ...`
lookup (db.py lines 62-64): the first pool entry comparing equal to the
address string.  `RecursionSource.pyEqStr` is constantly false, so the
lookup never finds anything. -/
def lookupRecursionSource (pool : List RecursionSource) (addr : String) :
    Option RecursionSource :=
  pool.find? (fun src => src.pyEqStr addr)

def lookupRequestSource (pool : List RequestSource) (addr : String) :
    Option RequestSource :=
  pool.find? (fun src => src.pyEqStr addr)

/-- The `for addr in zone.get("recursion", [])` loop (db.py lines 61-69):
for each address, reference the pool entry comparing equal to it, otherwise
construct a new source, append it to the shared pool and reference it.
Returns the updated pool and the zone's reference list. -/
def loadRecursionSources :
    List String → List RecursionSource → List RecursionSource →
    Except PyErr (List RecursionSource × List RecursionSource)
  | [], pool, zoneRefs => .ok (pool, zoneRefs)
  | addr :: rest, pool, zoneRefs =>
    match lookupRecursionSource pool addr with
    | some src => loadRecursionSources rest pool (zoneRefs ++ [src])
    | none =>
      match RecursionSource.make addr with
      | .error e => .error e
      | .ok src => loadRecursionSources rest (pool ++ [src]) (zoneRefs ++ [src])

/-- The `for addr in zone.get("allow_sources", [])` loop (db.py lines 73-81). -/
def loadRequestSources :
    List String → List RequestSource → List RequestSource →
    Except PyErr (List RequestSource × List RequestSource)
  | [], pool, zoneRefs => .ok (pool, zoneRefs)
  | addr :: rest, pool, zoneRefs =>
    match lookupRequestSource pool addr with
    | some src => loadRequestSources rest pool (zoneRefs ++ [src])
    | none =>
      match RequestSource.make addr with
      | .error e => .error e
      | .ok src => loadRequestSources rest (pool ++ [src]) (zoneRefs ++ [src])

/-- `load_zone` (db.py lines 40-96), one call (the recursive call site on
line 86 is unreachable, see below).

* line 41: `namespace = zone.get("namespace") or None` — a falsy value
  (e.g. `""`) is coerced to `None`;
* lines 43-44: a present non-`str` namespace raises;
* lines 46-47: no parent and a (truthy) namespace raises;
* line 49: with no parent, `namespace` is `None` at this point, and
  `namespace.endswith(".")` raises `AttributeError`;
* lines 52-53: a falsy namespace together with a truthy `records` list
  raises;
* line 55: the local `host` joins the namespace and the parent host with a
  dot (reachable only with a parent, by line 49);
* line 57: `load_records` on the zone's records;
* lines 59-81: the recursion/allow source pools;
* line 83 rebinds the name `zone` to `Zone(parent_zone, namespace, records,
  recursion_sources_zone, allow_sources_zone)` (a `Zone` instance), and
* line 85 then evaluates `zone.get("subzones", [])`, which raises
  `AttributeError` because the `Zone` dataclass has no `get` method; the
  constructed instance itself is discarded by the exception, so it is not
  materialised in the model. -/
def loadZone (zone : RawZone) (parent : Option Zone)
    (recPool : List RecursionSource) (allowPool : List RequestSource)
    (ptrPool : List PTRRecord) : Except PyErr Zone :=
  let nsv : Option PyVal := zone.nspace.bind (fun v => if v.truthy then some v else none)
  if (nsv.map (fun v => !v.isStr)).getD false then .error .namespaceNotString
  else
    match parent with
    | none =>
      if nsv.isSome then .error .subzoneCantBeRoot
      else .error .attributeErrorEndswith
    | some p =>
      if nsv.isNone && !(zone.records.getD []).isEmpty then .error .rootCantHaveRecord
      else
        let host : String :=
          match nsv with
          | none => "."
          | some v => (match v with | .str s => s | _ => "") ++ "." ++ p.host
        match loadRecords (zone.records.getD []) host ptrPool with
        | .error e => .error e
        | .ok (_rec, ptrPool') =>
          match loadRecursionSources (zone.recursion.getD []) recPool [] with
          | .error e => .error e
          | .ok (recPool', recRefs) =>
            match loadRequestSources (zone.allowSources.getD []) allowPool [] with
            | .error e => .error e
            | .ok (allowPool', allowRefs) =>
              let _ := (ptrPool', recPool', recRefs, allowPool', allowRefs)
              .error .attributeErrorZoneGet

/-! ## Helper lemmas -/

theorem recordParams_eq (cls : RecordType) : recordParams cls = ["record_type"] := by
  cases cls <;> rfl

theorem lookup_filter_keys (p : String × PyVal → Bool) (l : List (String × PyVal))
    (k : String) (h : ∀ kv, p kv = true → kv.1 ≠ k) :
    List.lookup k (l.filter p) = none := by
  induction l with
  | nil => rfl
  | cons kv rest ih =>
    rw [List.filter_cons]
    split
    · next hp =>
      obtain ⟨a, v⟩ := kv
      have hne : (k == a) = false := by
        have := h (a, v) hp
        simp only [ne_eq] at this
        exact beq_eq_false_iff_ne.mpr (fun he => this he.symm)
      simp [List.lookup, hne, ih]
    · exact ih

theorem lookup_extractParams (cls : RecordType) (record : RawRecord) (k : String)
    (hk : k ≠ "record_type") : List.lookup k (extractParams cls record) = none := by
  apply lookup_filter_keys
  intro kv hkv
  have : kv.1 ∈ recordParams cls := List.elem_iff.mp hkv
  rw [recordParams_eq] at this
  simp only [List.mem_singleton] at this
  exact fun he => hk (he ▸ this)

theorem constructRecord_extract (cls : RecordType) (record : RawRecord) :
    constructRecord cls (extractParams cls record) = .error .typeErrorMissingArg := by
  cases cls
  case A =>
    simp only [constructRecord]
    rw [lookup_extractParams RecordType.A record "address" (by decide)]
  case AAAA =>
    simp only [constructRecord]
    rw [lookup_extractParams RecordType.AAAA record "address" (by decide)]
  case CNAME =>
    simp only [constructRecord]
    rw [lookup_extractParams RecordType.CNAME record "target" (by decide)]
  case TXT =>
    simp only [constructRecord]
    rw [lookup_extractParams RecordType.TXT record "text" (by decide)]
  case PTR => rfl

theorem loadRecordsLoop_cons_error (host : String) (record : RawRecord)
    (rest : List RawRecord) (pool : List PTRRecord) (ins : List DNSRecord)
    (last : Option DNSRecord) :
    ∃ e, loadRecordsLoop host (record :: rest) pool ins last = .error e := by
  cases h1 : List.lookup "type" record with
  | none => exact ⟨.keyError, by simp only [loadRecordsLoop, h1]⟩
  | some tv =>
    cases h2 : recordTypeOfVal tv with
    | none => exact ⟨.recordTypeUndefined, by simp only [loadRecordsLoop, h1, h2]⟩
    | some rtype =>
      cases h3 : selectRecordClass rtype with
      | none => exact ⟨.stopIteration, by simp only [loadRecordsLoop, h1, h2, h3]⟩
      | some cls =>
        exact ⟨.typeErrorMissingArg,
          by simp only [loadRecordsLoop, h1, h2, h3, constructRecord_extract]⟩

theorem loadRecords_never_ok (records : List RawRecord) (host : String)
    (pool : List PTRRecord) : ∃ e, loadRecords records host pool = .error e := by
  cases records with
  | nil => exact ⟨.nameError, rfl⟩
  | cons record rest =>
    obtain ⟨e, he⟩ := loadRecordsLoop_cons_error host record rest pool [] none
    exact ⟨e, by rw [loadRecords, he]⟩

theorem ptrPyEq_iff (p q : PTRRecord) : ptrPyEq p q = true ↔ p = q := by
  obtain ⟨h, a⟩ := p
  obtain ⟨h', a'⟩ := q
  simp [ptrPyEq]

theorem mem_addPTR (pool : List PTRRecord) (ptr : PTRRecord) : ptr ∈ addPTR pool ptr := by
  unfold addPTR
  split
  · next hyp =>
    obtain ⟨e, he, heq⟩ := List.any_eq_true.mp hyp
    exact (ptrPyEq_iff ptr e).mp heq ▸ he
  · exact List.mem_append_right _ (List.mem_singleton.mpr rfl)

theorem addPTR_superset (pool : List PTRRecord) (ptr x : PTRRecord) (hx : x ∈ pool) :
    x ∈ addPTR pool ptr := by
  unfold addPTR
  split
  · exact hx
  · exact List.mem_append_left _ hx

theorem count_addPTR_le (pool : List PTRRecord) (ptr x : PTRRecord)
    (h : pool.count x ≤ 1) : (addPTR pool ptr).count x ≤ 1 := by
  unfold addPTR
  split
  · exact h
  · next hna =>
    rw [List.count_append]
    by_cases hx : x = ptr
    · subst hx
      have h0 : pool.count x = 0 := by
        apply List.count_eq_zero.mpr
        intro hm
        exact hna (List.any_eq_true.mpr ⟨x, hm, (ptrPyEq_iff x x).mpr rfl⟩)
      simp [h0, List.count_cons]
    · have h1 : List.count x [ptr] = 0 := by
        apply List.count_eq_zero.mpr
        simp [hx]
      omega

theorem syncPTR_superset (host : String) (rec : DNSRecord)
    (pool pool' : List PTRRecord) (h : syncPTR host rec pool = .ok pool')
    (x : PTRRecord) (hx : x ∈ pool) : x ∈ pool' := by
  unfold syncPTR at h
  split at h
  case h_1 ad =>
    cases hm : PTRRecord.make host ad with
    | error e => rw [hm] at h; exact absurd h (by simp)
    | ok ptr =>
      rw [hm] at h
      cases h
      exact addPTR_superset pool ptr x hx
  case h_2 ad =>
    cases hm : PTRRecord.make host ad with
    | error e => rw [hm] at h; exact absurd h (by simp)
    | ok ptr =>
      rw [hm] at h
      cases h
      exact addPTR_superset pool ptr x hx
  case h_3 =>
    cases h
    exact hx

theorem syncPTR_count_le (host : String) (rec : DNSRecord)
    (pool pool' : List PTRRecord) (h : syncPTR host rec pool = .ok pool')
    (x : PTRRecord) (hc : pool.count x ≤ 1) : pool'.count x ≤ 1 := by
  unfold syncPTR at h
  split at h
  case h_1 ad =>
    cases hm : PTRRecord.make host ad with
    | error e => rw [hm] at h; exact absurd h (by simp)
    | ok ptr => rw [hm] at h; cases h; exact count_addPTR_le pool ptr x hc
  case h_2 ad =>
    cases hm : PTRRecord.make host ad with
    | error e => rw [hm] at h; exact absurd h (by simp)
    | ok ptr => rw [hm] at h; cases h; exact count_addPTR_le pool ptr x hc
  case h_3 =>
    cases h
    exact hc

theorem syncPTRAll_superset (reqs : List (String × DNSRecord))
    (pool pool' : List PTRRecord) (h : syncPTRAll reqs pool = .ok pool')
    (x : PTRRecord) (hx : x ∈ pool) : x ∈ pool' := by
  induction reqs generalizing pool with
  | nil => cases h; exact hx
  | cons hd rest ih =>
    obtain ⟨hh, hr⟩ := hd
    rw [syncPTRAll] at h
    cases hs : syncPTR hh hr pool with
    | error e => rw [hs] at h; exact absurd h (by simp)
    | ok pool₁ =>
      rw [hs] at h
      exact ih pool₁ h (syncPTR_superset hh hr pool pool₁ hs x hx)

theorem syncPTRAll_count_le (reqs : List (String × DNSRecord))
    (pool pool' : List PTRRecord) (h : syncPTRAll reqs pool = .ok pool')
    (x : PTRRecord) (hc : pool.count x ≤ 1) : pool'.count x ≤ 1 := by
  induction reqs generalizing pool with
  | nil => cases h; exact hc
  | cons hd rest ih =>
    obtain ⟨hh, hr⟩ := hd
    rw [syncPTRAll] at h
    cases hs : syncPTR hh hr pool with
    | error e => rw [hs] at h; exact absurd h (by simp)
    | ok pool₁ =>
      rw [hs] at h
      exact ih pool₁ h (syncPTR_count_le hh hr pool pool₁ hs x hc)

theorem syncPTRAll_mem (reqs : List (String × DNSRecord))
    (pool pool' : List PTRRecord) (host address : String) (ip : IPAddr)
    (h : syncPTRAll reqs pool = .ok pool')
    (hreq : (host, DNSRecord.a address true) ∈ reqs ∨
      (host, DNSRecord.aaaa address true) ∈ reqs)
    (hip : ipAddressOfString address = some ip) :
    (⟨host, ip.reversePointer⟩ : PTRRecord) ∈ pool' := by
  induction reqs generalizing pool with
  | nil => rcases hreq with hmem | hmem <;> exact absurd hmem (by simp)
  | cons hd rest ih =>
    obtain ⟨hh, hr⟩ := hd
    rw [syncPTRAll] at h
    cases hs : syncPTR hh hr pool with
    | error e => rw [hs] at h; exact absurd h (by simp)
    | ok pool₁ =>
      rw [hs] at h
      by_cases hhd : (hh, hr) = (host, DNSRecord.a address true) ∨
          (hh, hr) = (host, DNSRecord.aaaa address true)
      · have hptr : (⟨host, ip.reversePointer⟩ : PTRRecord) ∈ pool₁ := by
          rcases hhd with hcase | hcase <;>
          · obtain ⟨rfl, rfl⟩ := Prod.mk.injEq .. ▸ hcase
            rw [syncPTR, PTRRecord.make, hip] at hs
            cases hs
            exact mem_addPTR _ _
        exact syncPTRAll_superset rest pool₁ pool' h _ hptr
      · have hrest : (host, DNSRecord.a address true) ∈ rest ∨
            (host, DNSRecord.aaaa address true) ∈ rest := by
          rcases hreq with hmem | hmem
          · rcases List.mem_cons.mp hmem with heq | hmem'
            · exact absurd (Or.inl heq.symm) hhd
            · exact Or.inl hmem'
          · rcases List.mem_cons.mp hmem with heq | hmem'
            · exact absurd (Or.inr heq.symm) hhd
            · exact Or.inr hmem'
        exact ih pool₁ h hrest

theorem pyRecordEq_refl (r : DNSRecord) : pyRecordEq r r = true := by
  cases r <;> simp [pyRecordEq]

theorem any_dedupAppend_self (acc : List DNSRecord) (r : DNSRecord) :
    (dedupAppend acc r).any (fun e => pyRecordEq r e) = true := by
  unfold dedupAppend
  split
  · next h => exact h
  · exact List.any_eq_true.mpr ⟨r, List.mem_append_right _ (by simp), pyRecordEq_refl r⟩

theorem any_dedupAppend_mono (acc : List DNSRecord) (x r : DNSRecord)
    (h : acc.any (fun e => pyRecordEq r e) = true) :
    (dedupAppend acc x).any (fun e => pyRecordEq r e) = true := by
  unfold dedupAppend
  split
  · exact h
  · rw [List.any_append]
    simp [h]

theorem any_foldl_dedup (l : List DNSRecord) (acc : List DNSRecord) (r : DNSRecord)
    (h : acc.any (fun e => pyRecordEq r e) = true) :
    (List.foldl dedupAppend acc l).any (fun e => pyRecordEq r e) = true := by
  induction l generalizing acc with
  | nil => exact h
  | cons x rest ih => exact ih _ (any_dedupAppend_mono acc x r h)

theorem foldl_dedup_skip (acc : List DNSRecord) (r : DNSRecord) (l : List DNSRecord)
    (h : acc.any (fun e => pyRecordEq r e) = true) :
    List.foldl dedupAppend acc (r :: l) = List.foldl dedupAppend acc l := by
  rw [List.foldl_cons]
  unfold dedupAppend
  rw [if_pos h]

theorem host_ends_dot : ∀ z : Zone, ∃ t : String, z.host = t ++ "."
  | .mk ns _ _ _ _ none => ⟨ns.getD "", rfl⟩
  | .mk ns r rc al sb (some p) => by
    obtain ⟨t, ht⟩ := host_ends_dot p
    exact ⟨ns.getD "" ++ t,
      by show ns.getD "" ++ p.host = ns.getD "" ++ t ++ "."
         rw [ht, String.append_assoc]⟩

theorem pyRecordEq_iff (r₁ r₂ : DNSRecord) :
    pyRecordEq r₁ r₂ = true ↔
      (r₁.recordType = r₂.recordType ∧ declaredFieldsEq r₁ r₂ ∧ r₁.ttl = r₂.ttl) := by
  cases r₁ <;> cases r₂ <;>
    simp [pyRecordEq, declaredFieldsEq, DNSRecord.recordType, DNSRecord.ttl]

theorem recordsAccum_drops_later_dup (l₁ l₂ l₃ : List DNSRecord) (r : DNSRecord) :
    recordsAccum (l₁ ++ r :: (l₂ ++ r :: l₃)) = recordsAccum (l₁ ++ r :: (l₂ ++ l₃)) := by
  unfold recordsAccum
  rw [List.foldl_append, List.foldl_append, List.foldl_cons, List.foldl_cons,
    List.foldl_append, List.foldl_append]
  exact foldl_dedup_skip _ r l₃
    (any_foldl_dedup l₂ _ r (any_dedupAppend_self (List.foldl dedupAppend [] l₁) r))

/-! ## The claims -/

/-- C1: the claim states that a root configuration with no `namespace` and an
absent or empty `records` list passes root validation and yields the root
`Zone`.  The code instead always raises: with no parent, `namespace` is
`None` when line 49 evaluates `namespace.endswith(".")`, which raises
`AttributeError`, for both the empty root mapping and the root mapping with
an explicitly empty `records` list. -/
theorem root_load_raises_attribute_error
    (recPool : List RecursionSource) (allowPool : List RequestSource)
    (ptrPool : List PTRRecord) :
    loadZone (.mk none none none none none) none recPool allowPool ptrPool =
      .error .attributeErrorEndswith ∧
    loadZone (.mk none (some []) none none none) none recPool allowPool ptrPool =
      .error .attributeErrorEndswith :=
  ⟨rfl, rfl⟩

/-- C2: the claim states that `load_records` returns the complete ordered
list of accepted records.  The code returns the loop variable `record_ins`
(a single record, not the `records_ins` list), raising `NameError` on an
empty input where the claim expects the empty list; moreover no invocation
of `load_records` can return at all, because the narrowing of `params` to
the `record_type` key makes every record construction raise `TypeError`. -/
theorem load_records_never_returns_list :
    loadRecords [] "." [] = .error .nameError ∧
    ∀ (records : List RawRecord) (host : String) (pool : List PTRRecord),
      ∃ e, loadRecords records host pool = .error e :=
  ⟨rfl, loadRecords_never_ok⟩

/-- C3: `Zone.host` is the concatenation of the zone's namespace label with
the parent's host, the parentless zone contributing the bare separator, and
consequently every host string ends with the separator `"."`. -/
theorem zone_host_derivation :
    (∀ (r : List DNSRecord) (rc : List RecursionSource) (al : List RequestSource)
      (sb : List Zone), Zone.host (.mk none r rc al sb none) = ".") ∧
    (∀ (ns : Option String) (r : List DNSRecord) (rc : List RecursionSource)
      (al : List RequestSource) (sb : List Zone) (p : Zone),
      Zone.host (.mk ns r rc al sb (some p)) = ns.getD "" ++ Zone.host p) ∧
    (∀ z : Zone, ∃ t : String, z.host = t ++ ".") :=
  ⟨fun _ _ _ _ => rfl, fun _ _ _ _ _ _ => rfl, host_ends_dot⟩

/-- C4: over the sequence of PTR-synthesis steps a load performs against the
load-wide pool (initially empty), every A/AAAA record with its
reverse-pointer flag set leaves exactly one PTR record with the matching
`(host, canonical-reverse-pointer)` pair in the final pool, even when the
same pair is requested several times. -/
theorem ptr_pool_exactly_one (reqs : List (String × DNSRecord))
    (pool' : List PTRRecord) (host address : String) (ip : IPAddr)
    (hok : syncPTRAll reqs [] = .ok pool')
    (hreq : (host, DNSRecord.a address true) ∈ reqs ∨
      (host, DNSRecord.aaaa address true) ∈ reqs)
    (hip : ipAddressOfString address = some ip) :
    pool'.count ⟨host, ip.reversePointer⟩ = 1 := by
  have hmem := syncPTRAll_mem reqs [] pool' host address ip hok hreq hip
  have hpos : 0 < pool'.count ⟨host, ip.reversePointer⟩ := List.count_pos_iff.mpr hmem
  have hle : pool'.count ⟨host, ip.reversePointer⟩ ≤ 1 :=
    syncPTRAll_count_le reqs [] pool' hok _ (by simp)
  omega

/-- Witness for C4: two records in (possibly different) zones with the same
host both request a PTR for `1.2.3.4`; the pool ends up with exactly one
entry for the pair. -/
theorem ptr_pool_exactly_one_witness :
    syncPTRAll [("h.", DNSRecord.a "1.2.3.4" true), ("h.", DNSRecord.a "1.2.3.4" true)] [] =
      .ok [⟨"h.", (IPAddr.v4 16909060).reversePointer⟩] ∧
    List.count (⟨"h.", (IPAddr.v4 16909060).reversePointer⟩ : PTRRecord)
      [⟨"h.", (IPAddr.v4 16909060).reversePointer⟩] = 1 :=
  ⟨by rfl,
   ptr_pool_exactly_one
     [("h.", DNSRecord.a "1.2.3.4" true), ("h.", DNSRecord.a "1.2.3.4" true)]
     [⟨"h.", (IPAddr.v4 16909060).reversePointer⟩] "h." "1.2.3.4" (IPAddr.v4 16909060)
     (by rfl) (Or.inl (List.mem_cons_self _ _)) (by decide)⟩

/-- C5: the claim states that two source identifiers built from different
textual representations of the same IP address are equal, hash equally, and
collapse to one pool entry.  The dataclass-generated `__eq__` (which shadows
`IPComparableMixin.__eq__`) compares the raw strings, so `"::1"` and
`"0:0:0:0:0:0:0:1"` — both parsing to the same IPv6 value — compare unequal,
and the pool lookup `src == addr` against a string is constantly false, so
even the identical text listed twice yields two pool entries and two
distinct references instead of one shared entry. -/
theorem source_identity_not_ip_based :
    RecursionSource.pyEq ⟨"::1"⟩ ⟨"0:0:0:0:0:0:0:1"⟩ = false ∧
    ipAddressOfString "::1" = some (.v6 1) ∧
    ipAddressOfString "0:0:0:0:0:0:0:1" = some (.v6 1) ∧
    loadRecursionSources ["127.0.0.1", "127.0.0.1"] [] [] =
      .ok ([⟨"127.0.0.1"⟩, ⟨"127.0.0.1"⟩], [⟨"127.0.0.1"⟩, ⟨"127.0.0.1"⟩]) :=
  ⟨rfl, by decide, by decide, rfl⟩

/-- C6: two non-PTR records compare equal under the dataclass `__eq__`
exactly when they have the same kind (`record_type`), equal declared fields
and equal `ttl` (constantly `None` on constructed instances); and the
`records_ins` accumulator of db.py lines 35-36 drops a record equal to an
earlier one, keeping only the first occurrence. -/
theorem record_equality_and_intra_zone_dedup :
    (∀ r₁ r₂ : DNSRecord, pyRecordEq r₁ r₂ = true ↔
      (r₁.recordType = r₂.recordType ∧ declaredFieldsEq r₁ r₂ ∧ r₁.ttl = r₂.ttl)) ∧
    (∀ (l₁ l₂ l₃ : List DNSRecord) (r : DNSRecord),
      recordsAccum (l₁ ++ r :: (l₂ ++ r :: l₃)) = recordsAccum (l₁ ++ r :: (l₂ ++ l₃))) :=
  ⟨pyRecordEq_iff, recordsAccum_drops_later_dup⟩

/-- C7: the claim states that a raw record whose `type` is `"PTR"` fails
with the DirectPTRNotAllowed error kind.  The guard on db.py line 18,
`isinstance(rtype, PTRRecord)`, is always false (an enum member is not a
`PTRRecord` instance), so the dedicated `raise` never fires; instead the
class filter on line 21 is exhausted and `next` raises `StopIteration`. -/
theorem ptr_type_raises_stop_iteration (record : RawRecord)
    (rest : List RawRecord) (host : String) (pool : List PTRRecord)
    (h : List.lookup "type" record = some (.str "PTR")) :
    loadRecords (record :: rest) host pool = .error .stopIteration := by
  rw [loadRecords]
  simp only [loadRecordsLoop, h]
  rfl

/-- Witness for C7 at the concrete input `{"type": "PTR"}`. -/
theorem ptr_type_raises_stop_iteration_witness :
    List.lookup "type" [("type", PyVal.str "PTR")] = some (.str "PTR") ∧
    loadRecords [[("type", PyVal.str "PTR")]] "." [] = .error .stopIteration :=
  ⟨rfl, ptr_type_raises_stop_iteration _ _ _ _ rfl⟩

/-- C8: the claim states that a raw record `{"type": "A"}` with an
IPv4-parseable `"address"` constructs successfully into an A record carrying
that address.  The computed `record_params` set is the intersection of the
class annotations with `{"record_type"}`, so the `"address"` entry is
filtered out of `params` and the dataclass `__init__` raises `TypeError`
for the missing required `address` argument. -/
theorem valid_a_record_construction_fails :
    (ipv4OfString "1.2.3.4").isSome = true ∧
    ∀ (host : String) (pool : List PTRRecord),
      loadRecords [[("type", PyVal.str "A"), ("address", PyVal.str "1.2.3.4")]] host pool =
        .error .typeErrorMissingArg :=
  ⟨by decide, fun _ _ => rfl⟩

/-- C9: the claim states that a non-root zone with `"namespace": ""` fails
with the InvalidNamespace error kind.  Line 41 coerces the falsy empty
string to `None` (`zone.get("namespace") or None`), after which every
namespace check passes for a zone with a parent; the load then fails later,
inside `load_records`, with the unrelated `NameError` of the empty loop. -/
theorem empty_namespace_subzone_not_rejected (parent : Zone)
    (recPool : List RecursionSource) (allowPool : List RequestSource)
    (ptrPool : List PTRRecord) :
    loadZone (.mk (some (.str "")) none none none none) (some parent)
      recPool allowPool ptrPool = .error .nameError :=
  rfl

/-- C10: comparing a source identifier with a string through
`IPComparableMixin.__eq__` is total — the `except ValueError` clause catches
the only exception either parse can raise — and yields `False` whenever the
comparand string does not parse as an IP address. -/
theorem mixin_eq_str_false_on_unparseable (selfAddress other : String)
    (h : ipAddressOfString other = none) :
    IPComparableMixin.eqStr selfAddress other = false := by
  unfold IPComparableMixin.eqStr
  rw [h]
  cases ipAddressOfString selfAddress <;> rfl

/-- Witness for C10 at a constructed source address and a non-IP string. -/
theorem mixin_eq_str_false_on_unparseable_witness :
    ipAddressOfString "not-an-ip" = none ∧
    IPComparableMixin.eqStr "127.0.0.1" "not-an-ip" = false :=
  ⟨by decide, mixin_eq_str_false_on_unparseable "127.0.0.1" "not-an-ip" (by decide)⟩

end PyDNS
